import Mathlib

/-!
Verification development for the recipe-EDA preprocessing pipeline
(`src/preprocessing.py`): a shallow embedding of the table data model,
the per-cell conversion helpers, the four conversion stages and the
`convert_recipes_for_univariate` pipeline, followed by theorems about
the spec's claims.
-/

/-- A scalar entry of a list-valued cell: the absent marker (None/NaN),
a string or a number. The dataset's list columns (tags, ingredients,
steps, nutrition) hold flat lists of scalars. -/
inductive Atom where
  | absent : Atom
  | str : String → Atom
  | int : Int → Atom
deriving DecidableEq

/-- A table cell. Mirrors the dynamically typed pandas cells the code
manipulates: the absent marker (None/NaN/NaT), strings, numbers, native
Python lists and parsed timestamps (year, month, day). -/
inductive Cell where
  | absent : Cell
  | str : String → Cell
  | int : Int → Cell
  | list : List Atom → Cell
  | date : Nat → Nat → Nat → Cell
deriving DecidableEq

def Atom.toCell : Atom → Cell
  | .absent => .absent
  | .str s => .str s
  | .int n => .int n

/-- The exceptions the embedded code can raise.
`ambiguousTruth` models the ValueError numpy raises when Python
truth-tests a boolean array with more than one element (triggered by
`if pd.isna(x):` on a multi-element list cell); `nameCollision` models
the ValueError raised by `split_nutrition_columns`, carrying the list
of already-present output column names. -/
inductive PyErr where
  | ambiguousTruth : PyErr
  | nameCollision : List String → PyErr
deriving DecidableEq

/-- A named column: its name, whether its dtype is category, its cells. -/
structure Column where
  name : String
  isCat : Bool
  cells : List Cell
deriving DecidableEq

/-- A table: an ordered list of named columns. -/
structure Table where
  cols : List Column
deriving DecidableEq

def Table.columns (t : Table) : List String :=
  t.cols.map (fun c => c.name)

/-- Look up the first column with the given name. -/
def lookupCol (n : String) : List Column → Option Column
  | [] => none
  | c :: cs => if c.name == n then some c else lookupCol n cs

/-- Does a column with the given name exist? -/
def hasCol (n : String) : List Column → Bool
  | [] => false
  | c :: cs => c.name == n || hasCol n cs

/-- Replace every column with the given name by a fresh object-dtype
column holding `cells` (pandas column assignment). -/
def replaceCol (n : String) (cells : List Cell) : List Column → List Column
  | [] => []
  | c :: cs => (if c.name == n then ⟨n, false, cells⟩ else c) :: replaceCol n cells cs

def Table.getCol (t : Table) (n : String) : List Cell :=
  match lookupCol n t.cols with
  | some c => c.cells
  | none => []

/-- `df[n] = cells`: replace the column in place when the name exists
(pandas keeps its position; a fresh assignment always has object dtype,
hence `isCat := false`), otherwise append it at the right end. -/
def Table.setCol (t : Table) (n : String) (cells : List Cell) : Table :=
  if hasCol n t.cols then ⟨replaceCol n cells t.cols⟩
  else ⟨t.cols ++ [⟨n, false, cells⟩]⟩

/-- `df.drop(columns=[n])`. -/
def Table.dropCol (t : Table) (n : String) : Table :=
  ⟨t.cols.filter (fun c => ¬ c.name == n)⟩

/-- `df[n] = df[n].astype("category")`: only the dtype tag changes. -/
def Table.astypeCategory (t : Table) (n : String) : Table :=
  ⟨t.cols.map (fun c => if c.name == n then ⟨c.name, true, c.cells⟩ else c)⟩

/-- Scalar missing-value test (`pd.isna` on a scalar). -/
def Atom.isna : Atom → Bool
  | .absent => true
  | _ => false

/-- The truth value of `pd.isna(x)` as used in `if pd.isna(x):`.
For scalar cells pandas returns a plain bool (True exactly for the
absent marker). For a Python list pandas returns a numpy boolean array
of per-element results; Python truth-testing that array is only legal
when it has exactly one element and raises
`ValueError: The truth value of an array ... is ambiguous` otherwise. -/
def pdIsnaTruth : Cell → Except PyErr Bool
  | .absent => .ok true
  | .list xs =>
    match xs with
    | [y] => .ok y.isna
    | _ => .error .ambiguousTruth
  | _ => .ok false

/-- Characters making up a decimal number (model of int literals). -/
def charsToNat (cs : List Char) : Nat :=
  cs.foldl (fun a c => a * 10 + (c.toNat - 48)) 0

def parseNatChars (cs : List Char) : Option Nat :=
  if cs.isEmpty then none
  else if cs.all Char.isDigit then some (charsToNat cs) else none

def parseIntChars (cs : List Char) : Option Int :=
  match cs with
  | '-' :: rest => (parseNatChars rest).map (fun n => -(n : Int))
  | _ => (parseNatChars cs).map (fun n => (n : Int))

/-- Split a character list on a separator character. -/
def splitOnChar (sep : Char) : List Char → List (List Char)
  | [] => [[]]
  | c :: cs =>
    let r := splitOnChar sep cs
    if c = sep then [] :: r
    else
      match r with
      | [] => [[c]]
      | g :: gs => (c :: g) :: gs

def trimChars (cs : List Char) : List Char :=
  ((cs.dropWhile Char.isWhitespace).reverse.dropWhile Char.isWhitespace).reverse

/-- Model of `ast.literal_eval` restricted to list literals with
integer entries, for example "[1, 2, 3]": returns the entry list, or
`none` when the string is not such a literal (the Python call would
raise ValueError/SyntaxError, which the caller catches). -/
def parseListLiteral (s : String) : Option (List Atom) :=
  let cs := trimChars s.data
  if cs.head? = some '[' ∧ cs.getLast? = some ']' then
    let inner := trimChars ((cs.drop 1).dropLast)
    if inner.isEmpty then some []
    else
      (splitOnChar ',' inner).mapM
        (fun g => (parseIntChars (trimChars g)).map Atom.int)
  else none

/-- `_safe_literal_eval`: converts a string holding a Python literal to
the parsed object; on parse failure returns the original value; lists
(and dicts) and absent values pass through untouched. The
`isinstance(x, (list, dict))` test short-circuits before `pd.isna`, so
this helper never truth-tests an array. Non-list parse results (for
example the string "42") are modelled as returning the original string:
the only caller tests `isinstance(parsed, list)`, so the two are
observationally identical. -/
def safe_literal_eval (x : Cell) : Except PyErr Cell :=
  match x with
  | .list xs => .ok (.list xs)
  | _ =>
    match pdIsnaTruth x with
    | .error e => .error e
    | .ok true => .ok x
    | .ok false =>
      match x with
      | .str s =>
        match parseListLiteral s with
        | some xs => .ok (.list xs)
        | none => .ok (.str s)
      | _ => .ok x

/-- `_ensure_list_or_none`: forces a cell to a list or the absent
marker. NOTE: the source tests `pd.isna(x)` first, before the
`isinstance(x, list)` test, so a native list cell with two or more
elements raises the ambiguous-truth ValueError, and a one-element list
whose entry is absent collapses to the absent marker. -/
def ensure_list_or_none (x : Cell) : Except PyErr Cell :=
  match pdIsnaTruth x with
  | .error e => .error e
  | .ok true => .ok .absent
  | .ok false =>
    match x with
    | .list xs => .ok (.list xs)
    | _ =>
      match safe_literal_eval x with
      | .error e => .error e
      | .ok (.list xs) => .ok (.list xs)
      | .ok _ => .ok .absent

/-- `_pad_or_none`: turn a list-or-absent value into a row of exactly
`n` entries - pad on the right with the absent marker, truncate past
`n`, and give `n` absent entries for a non-list value. -/
def pad_or_none (x : Cell) (n : Nat) : List Atom :=
  match x with
  | .list xs =>
    if xs.length = n then xs
    else if xs.length < n then xs ++ List.replicate (n - xs.length) Atom.absent
    else xs.take n
  | _ => List.replicate n Atom.absent

/-- `series.apply(f)`: apply `f` to every cell in order, propagating
the first raised exception. -/
def applySeries (f : Cell → Except PyErr Cell) : List Cell → Except PyErr (List Cell)
  | [] => .ok []
  | x :: xs =>
    match f x with
    | .error e => .error e
    | .ok y =>
      match applySeries f xs with
      | .error e => .error e
      | .ok ys => .ok (y :: ys)

/-- `df[n] = df[n].apply(f)`. -/
def Table.applyCol (t : Table) (n : String) (f : Cell → Except PyErr Cell) : Except PyErr Table :=
  match applySeries f (t.getCol n) with
  | .error e => .error e
  | .ok cells => .ok (t.setCol n cells)

/-- Gregorian leap year. -/
def isLeapYear (y : Nat) : Bool :=
  (y % 4 == 0 && y % 100 != 0) || y % 400 == 0

def daysInMonth (y m : Nat) : Nat :=
  if m = 2 then (if isLeapYear y then 29 else 28)
  else if m = 4 ∨ m = 6 ∨ m = 9 ∨ m = 11 then 30
  else 31

def validDate (y m d : Nat) : Bool :=
  1 ≤ y && 1 ≤ m && m ≤ 12 && 1 ≤ d && d ≤ daysInMonth y m

/-- Days in the months before month `m` of year `y`. -/
def monthDaysBefore (y m : Nat) : Nat :=
  ((List.range (m - 1)).map (fun i => daysInMonth y (i + 1))).foldl (fun a b => a + b) 0

/-- Day number of a proleptic-Gregorian date, with 0001-01-01 = 1
(which was a Monday). -/
def rataDie (y m d : Nat) : Nat :=
  365 * (y - 1) + (y - 1) / 4 - (y - 1) / 100 + (y - 1) / 400 + monthDaysBefore y m + d

/-- pandas `.dt.dayofweek`: Monday = 0 ... Sunday = 6. -/
def dayOfWeek (y m d : Nat) : Nat :=
  (rataDie y m d - 1) % 7

/-- Parse an ISO "YYYY-MM-DD" string to a calendar-valid date. -/
def parseDateString (s : String) : Option (Nat × Nat × Nat) :=
  match (splitOnChar '-' (trimChars s.data)).map parseNatChars with
  | [some y, some m, some d] =>
    if validDate y m d then some (y, m, d) else none
  | _ => none

/-- Cell-wise model of `pd.to_datetime(series, errors="coerce")`:
ISO date strings parse to timestamps, invalid or unparsable dates
coerce to NaT (the absent marker), already-parsed timestamps pass
through, and every other cell coerces to NaT. Never raises. -/
def toDatetimeCell (x : Cell) : Cell :=
  match x with
  | .date y m d => .date y m d
  | .str s =>
    match parseDateString s with
    | some (y, m, d) => .date y m d
    | none => .absent
  | _ => .absent

/-- `.dt.year` on a cell of a datetime column; NaT gives absent. -/
def dtYear : Cell → Cell
  | .date y _ _ => .int (y : Int)
  | _ => .absent

/-- `.dt.month` on a cell of a datetime column; NaT gives absent. -/
def dtMonth : Cell → Cell
  | .date _ m _ => .int (m : Int)
  | _ => .absent

/-- `.dt.day` on a cell of a datetime column; NaT gives absent. -/
def dtDay : Cell → Cell
  | .date _ _ d => .int (d : Int)
  | _ => .absent

/-- `.dt.dayofweek` on a cell of a datetime column; NaT gives absent. -/
def dtDayofweek : Cell → Cell
  | .date y m d => .int ((dayOfWeek y m d : Nat) : Int)
  | _ => .absent

/-- `NUTRITION_COLS`: the conventional order of the 7 values packed in
the 'nutrition' column. -/
def NUTRITION_COLS : List String :=
  ["calories", "total_fat", "sugar", "sodium", "protein", "saturated_fat", "carbohydrates"]

/-- `DEFAULT_LIST_LIKE_COLS`. -/
def DEFAULT_LIST_LIKE_COLS : List String :=
  ["tags", "ingredients", "steps", "nutrition"]

/-- `convert_list_like_columns`: for each named column present in the
table, replace it by its cells passed through `_ensure_list_or_none`;
absent names are skipped. -/
def convert_list_like_columns (df : Table) (list_like_cols : List String) : Except PyErr Table :=
  match list_like_cols with
  | [] => .ok df
  | c :: rest =>
    match (if c ∈ df.columns then df.applyCol c ensure_list_or_none else .ok df) with
    | .error e => .error e
    | .ok df1 => convert_list_like_columns df1 rest

/-- The columns of the intermediate `nutri_df`: one column per output
name, the i-th holding the i-th entry of every padded row. -/
def buildNutriCols (output_cols : List String) (padded : List (List Atom)) : List Column :=
  output_cols.enum.map
    (fun p => ⟨p.2, false, padded.map (fun row => (row.getD p.1 Atom.absent).toCell)⟩)

/-- `pd.concat([df, nutri_df], axis=1)`: the input columns followed by
one column per output name, the i-th holding the i-th entry of every
padded row. -/
def splitJoined (df : Table) (output_cols : List String) (lists : List Cell) : Table :=
  ⟨df.cols ++ buildNutriCols output_cols (lists.map (fun x => pad_or_none x output_cols.length))⟩

/-- `split_nutrition_columns`: split the nutrition column into one
scalar column per output name. Returns the table unchanged when the
source column is missing; coerces cells to list-or-absent, pads or
truncates every row to the output arity, then (after that coercion ran)
raises a name collision listing every output name already present;
otherwise concatenates the new columns on the right and optionally
drops the source column. -/
def split_nutrition_columns (df : Table) (nutrition_col : String)
    (output_cols : List String) (drop_original : Bool) : Except PyErr Table :=
  if nutrition_col ∈ df.columns then
    match applySeries ensure_list_or_none (df.getCol nutrition_col) with
    | .error e => .error e
    | .ok lists =>
      if output_cols.filter (fun c => decide (c ∈ df.columns)) = [] then
        if drop_original ∧ nutrition_col ∈ (splitJoined df output_cols lists).columns then
          .ok ((splitJoined df output_cols lists).dropCol nutrition_col)
        else
          .ok (splitJoined df output_cols lists)
      else
        .error (.nameCollision (output_cols.filter (fun c => decide (c ∈ df.columns))))
  else
    .ok df

/-- One `df["part"] = df[submitted_col].dt.part` step, executed only
when the part name is requested. -/
def addPartCol (df : Table) (submitted_col : String) (part : String)
    (f : Cell → Cell) (parts : List String) : Table :=
  if part ∈ parts then df.setCol part ((df.getCol submitted_col).map f) else df

/-- `convert_temporal_columns`: parse the source column with coerce
semantics and optionally derive the requested calendar parts, each
appended (or overwritten in place) in the fixed order year, month,
day, dayofweek; requested names outside that set are ignored. -/
def convert_temporal_columns (df : Table) (submitted_col : String)
    (add_parts : Bool) (parts : List String) : Table :=
  if submitted_col ∈ df.columns then
    if add_parts then
      addPartCol
        (addPartCol
          (addPartCol
            (addPartCol
              (df.setCol submitted_col ((df.getCol submitted_col).map toDatetimeCell))
              submitted_col "year" dtYear parts)
            submitted_col "month" dtMonth parts)
          submitted_col "day" dtDay parts)
        submitted_col "dayofweek" dtDayofweek parts
    else
      df.setCol submitted_col ((df.getCol submitted_col).map toDatetimeCell)
  else df

/-- `convert_contributor_to_category`: cast the contributor column to
category dtype when present; values are untouched. -/
def convert_contributor_to_category (df : Table) (contributor_col : String) : Table :=
  if contributor_col ∈ df.columns then df.astypeCategory contributor_col else df

/-- `RecipeConversionConfig`: the frozen dataclass configuring the
pipeline. It has exactly these seven fields; the nutrition output
names are not among them. -/
structure RecipeConversionConfig where
  list_like_cols : List String
  nutrition_col : String
  temporal_col : String
  add_temporal_parts : Bool
  temporal_parts : List String
  contributor_col : String
  drop_original_nutrition : Bool
deriving DecidableEq

/-- The dataclass's field defaults. -/
def RecipeConversionConfig.default : RecipeConversionConfig :=
  ⟨DEFAULT_LIST_LIKE_COLS, "nutrition", "submitted", true, ["year", "month"], "contributor_id", false⟩

/-- The `output_cols` argument `convert_recipes_for_univariate` passes
to `split_nutrition_columns`: the source hardcodes the constant
`NUTRITION_COLS`, independent of the configuration. -/
def pipelineSplitOutputCols (_cfg : RecipeConversionConfig) : List String :=
  NUTRITION_COLS

/-- The body of `convert_recipes_for_univariate` for a resolved
configuration: list-like parsing, nutrition split (when the configured
nutrition column is present), temporal conversion, category cast. -/
def convert_recipes_with (df : Table) (cfg : RecipeConversionConfig) : Except PyErr Table :=
  match convert_list_like_columns df cfg.list_like_cols with
  | .error e => .error e
  | .ok df1 =>
    match (if cfg.nutrition_col ∈ df1.columns then
             split_nutrition_columns df1 cfg.nutrition_col (pipelineSplitOutputCols cfg)
               cfg.drop_original_nutrition
           else .ok df1) with
    | .error e => .error e
    | .ok df2 =>
      .ok (convert_contributor_to_category
            (convert_temporal_columns df2 cfg.temporal_col cfg.add_temporal_parts cfg.temporal_parts)
            cfg.contributor_col)

/-- `convert_recipes_for_univariate`: resolve `config or
RecipeConversionConfig()` and run the pipeline body. -/
def convert_recipes_for_univariate (df_recipes : Table)
    (config : Option RecipeConversionConfig) : Except PyErr Table :=
  convert_recipes_with df_recipes (config.getD RecipeConversionConfig.default)

/-! ### Shared lemmas about the table primitives -/


theorem hasCol_iff_mem (n : String) :
    ∀ (l : List Column), hasCol n l = true ↔ n ∈ l.map (fun c => c.name) := by
  intro l
  induction l with
  | nil => simp [hasCol]
  | cons c l ih =>
    by_cases hc : c.name = n
    · simp [hasCol, hc]
    · have hb : (c.name == n) = false := by simp [hc]
      have hnc : ¬ n = c.name := fun h => hc h.symm
      simp [hasCol, hb, ih, hnc]

theorem lookupCol_replaceCol_self (n : String) (cs : List Cell) :
    ∀ (l : List Column), hasCol n l = true →
      lookupCol n (replaceCol n cs l) = some ⟨n, false, cs⟩ := by
  intro l
  induction l with
  | nil => intro h; simp [hasCol] at h
  | cons c l ih =>
    intro h
    by_cases hc : c.name = n
    · simp [replaceCol, lookupCol, hc]
    · have hb : (c.name == n) = false := by simp [hc]
      have h' : hasCol n l = true := by simpa [hasCol, hb] using h
      simpa [replaceCol, lookupCol, hb] using ih h'

theorem lookupCol_append_self (n : String) (cs : List Cell) :
    ∀ (l : List Column), hasCol n l = false →
      lookupCol n (l ++ [⟨n, false, cs⟩]) = some ⟨n, false, cs⟩ := by
  intro l
  induction l with
  | nil => intro _; simp [lookupCol]
  | cons c l ih =>
    intro h
    have hb : (c.name == n) = false := by
      by_cases hcb : c.name = n
      · exact absurd h (by simp [hasCol, hcb])
      · simp [hcb]
    have h' : hasCol n l = false := by simpa [hasCol, hb] using h
    simpa [lookupCol, hb] using ih h'

theorem lookupCol_replaceCol_ne (m n : String) (cs : List Cell) (hmn : m ≠ n) :
    ∀ (l : List Column), lookupCol m (replaceCol n cs l) = lookupCol m l := by
  intro l
  induction l with
  | nil => simp [replaceCol]
  | cons c l ih =>
    by_cases hc : c.name = n
    · have hb : (c.name == n) = true := by simp [hc]
      have hm1 : ((n : String) == m) = false := by
        have : ¬ n = m := fun h => hmn h.symm
        simp [this]
      have hm2 : (c.name == m) = false := by
        have : ¬ n = m := fun h => hmn h.symm
        simp [hc, this]
      simp [replaceCol, lookupCol, hb, hm1, hm2, ih]
    · have hb : (c.name == n) = false := by simp [hc]
      by_cases hcm : c.name = m
      · simp [replaceCol, lookupCol, hb, hcm, hmn]
      · have hm2 : (c.name == m) = false := by simp [hcm]
        simp [replaceCol, lookupCol, hb, hm2, ih]

theorem lookupCol_append_ne (m n : String) (cs : List Cell) (hmn : m ≠ n) :
    ∀ (l : List Column), lookupCol m (l ++ [⟨n, false, cs⟩]) = lookupCol m l := by
  intro l
  induction l with
  | nil =>
    have hm1 : ((n : String) == m) = false := by
      have : ¬ n = m := fun h => hmn h.symm
      simp [this]
    simp [lookupCol, hm1]
  | cons c l ih =>
    by_cases hcm : c.name = m
    · simp [lookupCol, hcm]
    · have hm2 : (c.name == m) = false := by simp [hcm]
      simp [lookupCol, hm2, ih]

theorem getCol_setCol_self (t : Table) (n : String) (cs : List Cell) :
    (t.setCol n cs).getCol n = cs := by
  unfold Table.setCol Table.getCol
  by_cases h : hasCol n t.cols = true
  · simp only [h, if_true]
    rw [lookupCol_replaceCol_self n cs t.cols h]
  · have h' : hasCol n t.cols = false := by simpa using h
    simp only [h', Bool.false_eq_true, if_false]
    rw [lookupCol_append_self n cs t.cols h']

theorem getCol_setCol_ne (t : Table) (m n : String) (cs : List Cell) (hmn : m ≠ n) :
    (t.setCol n cs).getCol m = t.getCol m := by
  unfold Table.setCol Table.getCol
  by_cases h : hasCol n t.cols = true
  · simp only [h, if_true]
    rw [lookupCol_replaceCol_ne m n cs hmn t.cols]
  · have h' : hasCol n t.cols = false := by simpa using h
    simp only [h', Bool.false_eq_true, if_false]
    rw [lookupCol_append_ne m n cs hmn t.cols]

theorem mem_replaceCol_self (n : String) (cs : List Cell) :
    ∀ (l : List Column), hasCol n l = true →
      n ∈ (replaceCol n cs l).map (fun c => c.name) := by
  intro l
  induction l with
  | nil => intro h; simp [hasCol] at h
  | cons c l ih =>
    intro h
    by_cases hc : c.name = n
    · simp [replaceCol, hc]
    · have hb : (c.name == n) = false := by simp [hc]
      have h' : hasCol n l = true := by simpa [hasCol, hb] using h
      simp [replaceCol, hb]
      exact Or.inr (by simpa using ih h')

theorem mem_map_name_replaceCol (m n : String) (cs : List Cell) :
    ∀ (l : List Column), m ∈ l.map (fun c => c.name) →
      m ∈ (replaceCol n cs l).map (fun c => c.name) := by
  intro l
  induction l with
  | nil => intro h; simp at h
  | cons c l ih =>
    intro h
    rcases (by simpa using h : m = c.name ∨ m ∈ l.map (fun c => c.name)) with hm | hm
    · by_cases hc : c.name = n
      · simp [replaceCol, hc, hm]
      · have hb : (c.name == n) = false := by simp [hc]
        simp [replaceCol, hb, hm]
    · simp [replaceCol]
      exact Or.inr (by simpa using ih hm)

theorem mem_columns_setCol_self (t : Table) (n : String) (cs : List Cell) :
    n ∈ (t.setCol n cs).columns := by
  unfold Table.setCol Table.columns
  by_cases h : hasCol n t.cols = true
  · simp only [h, if_true]
    exact mem_replaceCol_self n cs t.cols h
  · have h' : hasCol n t.cols = false := by simpa using h
    simp only [h', Bool.false_eq_true, if_false]
    simp

theorem mem_columns_setCol (t : Table) (m n : String) (cs : List Cell)
    (hm : m ∈ t.columns) : m ∈ (t.setCol n cs).columns := by
  unfold Table.setCol Table.columns
  by_cases h : hasCol n t.cols = true
  · simp only [h, if_true]
    exact mem_map_name_replaceCol m n cs t.cols hm
  · have h' : hasCol n t.cols = false := by simpa using h
    simp only [h', Bool.false_eq_true, if_false]
    simp only [List.map_append, List.mem_append]
    exact Or.inl hm

/-- All columns of the table hold exactly `n` cells (row count `n`). -/
def uniformRows (t : Table) (n : Nat) : Prop :=
  ∀ col ∈ t.cols, col.cells.length = n

instance (t : Table) (n : Nat) : Decidable (uniformRows t n) := by
  unfold uniformRows
  infer_instance

theorem mem_of_mem_replaceCol (k : String) (cs : List Cell) :
    ∀ (l : List Column) (col : Column), col ∈ replaceCol k cs l →
      col = ⟨k, false, cs⟩ ∨ col ∈ l := by
  intro l
  induction l with
  | nil => intro col h; simp [replaceCol] at h
  | cons c l ih =>
    intro col h
    rcases (by simpa [replaceCol] using h :
        col = (if c.name == k then ⟨k, false, cs⟩ else c) ∨ col ∈ replaceCol k cs l) with hh | hh
    · by_cases hc : c.name = k
      · have hb : (c.name == k) = true := by simp [hc]
        rw [hb] at hh
        exact Or.inl (by simpa using hh)
      · have hb : (c.name == k) = false := by simp [hc]
        rw [hb] at hh
        exact Or.inr (by simp [hh])
    · rcases ih col hh with h1 | h1
      · exact Or.inl h1
      · exact Or.inr (by simp [h1])

theorem uniformRows_setCol (t : Table) (k : String) (cs : List Cell) (n : Nat)
    (h : uniformRows t n) (hcs : cs.length = n) : uniformRows (t.setCol k cs) n := by
  unfold Table.setCol
  by_cases hh : hasCol k t.cols = true
  · simp only [hh, if_true]
    intro col hcol
    rcases mem_of_mem_replaceCol k cs t.cols col hcol with h1 | h1
    · rw [h1]; exact hcs
    · exact h col h1
  · have h' : hasCol k t.cols = false := by simpa using hh
    simp only [h', Bool.false_eq_true, if_false]
    intro col hcol
    rcases (by simpa using hcol : col ∈ t.cols ∨ col = Column.mk k false cs) with h1 | h1
    · exact h col h1
    · rw [h1]; exact hcs

theorem lookupCol_some_of_hasCol (m : String) :
    ∀ (l : List Column), hasCol m l = true →
      ∃ c, c ∈ l ∧ lookupCol m l = some c := by
  intro l
  induction l with
  | nil => intro h; simp [hasCol] at h
  | cons c l ih =>
    intro h
    by_cases hc : c.name = m
    · have hb : (c.name == m) = true := by simp [hc]
      exact ⟨c, by simp, by simp [lookupCol, hb]⟩
    · have hb : (c.name == m) = false := by simp [hc]
      have h' : hasCol m l = true := by simpa [hasCol, hb] using h
      rcases ih h' with ⟨d, hd, hl⟩
      exact ⟨d, by simp [hd], by simp [lookupCol, hb, hl]⟩

theorem getCol_length_of_mem (t : Table) (m : String) (n : Nat)
    (h : uniformRows t n) (hm : m ∈ t.columns) : (t.getCol m).length = n := by
  unfold Table.getCol
  have hh : hasCol m t.cols = true := (hasCol_iff_mem m t.cols).mpr hm
  rcases lookupCol_some_of_hasCol m t.cols hh with ⟨c, hc, hl⟩
  rw [hl]
  exact h c hc

theorem uniformRows_dropCol (t : Table) (m : String) (n : Nat)
    (h : uniformRows t n) : uniformRows (t.dropCol m) n := by
  unfold Table.dropCol
  intro col hcol
  exact h col (List.mem_of_mem_filter hcol)

theorem uniformRows_astypeCategory (t : Table) (m : String) (n : Nat)
    (h : uniformRows t n) : uniformRows (t.astypeCategory m) n := by
  unfold Table.astypeCategory
  intro col hcol
  rcases List.mem_map.mp hcol with ⟨c, hc, hceq⟩
  by_cases hcm : c.name = m
  · have hb : (c.name == m) = true := by simp [hcm]
    rw [hb] at hceq
    rw [← hceq]
    exact h c hc
  · have hb : (c.name == m) = false := by simp [hcm]
    rw [hb] at hceq
    rw [← hceq]
    exact h c hc

theorem applySeries_ok_length (f : Cell → Except PyErr Cell) :
    ∀ (xs ys : List Cell), applySeries f xs = .ok ys → ys.length = xs.length := by
  intro xs
  induction xs with
  | nil =>
    intro ys h
    simp [applySeries] at h
    simp [← h]
  | cons x xs ih =>
    intro ys h
    unfold applySeries at h
    cases hfx : f x with
    | error e => rw [hfx] at h; simp at h
    | ok y =>
      rw [hfx] at h
      cases hrec : applySeries f xs with
      | error e => rw [hrec] at h; simp at h
      | ok ys0 =>
        rw [hrec] at h
        simp at h
        rw [← h]
        simp [ih ys0 hrec]

theorem applySeries_ok_getD (f : Cell → Except PyErr Cell) :
    ∀ (xs ys : List Cell), applySeries f xs = .ok ys → ∀ i, i < xs.length →
      f (xs.getD i Cell.absent) = .ok (ys.getD i Cell.absent) := by
  intro xs
  induction xs with
  | nil => intro ys _ i hi; simp at hi
  | cons x xs ih =>
    intro ys h i hi
    unfold applySeries at h
    cases hfx : f x with
    | error e => rw [hfx] at h; simp at h
    | ok y =>
      rw [hfx] at h
      cases hrec : applySeries f xs with
      | error e => rw [hrec] at h; simp at h
      | ok ys0 =>
        rw [hrec] at h
        simp at h
        rw [← h]
        cases i with
        | zero => simpa using hfx
        | succ j =>
          have hj : j < xs.length := by simpa using hi
          simpa using ih ys0 hrec j hj

theorem applyCol_uniform (t : Table) (c : String) (f : Cell → Except PyErr Cell)
    (n : Nat) (out : Table) (h : uniformRows t n) (hc : c ∈ t.columns)
    (happ : t.applyCol c f = .ok out) : uniformRows out n := by
  unfold Table.applyCol at happ
  cases hs : applySeries f (t.getCol c) with
  | error e => rw [hs] at happ; simp at happ
  | ok cells =>
    rw [hs] at happ
    simp at happ
    rw [← happ]
    refine uniformRows_setCol t c cells n h ?_
    rw [applySeries_ok_length f _ _ hs]
    exact getCol_length_of_mem t c n h hc

theorem convert_list_like_uniform :
    ∀ (cols : List String) (df out : Table) (n : Nat),
      uniformRows df n → convert_list_like_columns df cols = .ok out →
        uniformRows out n := by
  intro cols
  induction cols with
  | nil =>
    intro df out n h hc
    unfold convert_list_like_columns at hc
    simp at hc
    rw [← hc]
    exact h
  | cons c rest ih =>
    intro df out n h hc
    unfold convert_list_like_columns at hc
    by_cases hmem : c ∈ df.columns
    · rw [if_pos hmem] at hc
      cases happ : df.applyCol c ensure_list_or_none with
      | error e => rw [happ] at hc; simp at hc
      | ok df1 =>
        rw [happ] at hc
        have hc' : convert_list_like_columns df1 rest = .ok out := hc
        exact ih df1 out n (applyCol_uniform df c ensure_list_or_none n df1 h hmem happ) hc'
    · rw [if_neg hmem] at hc
      have hc' : convert_list_like_columns df rest = .ok out := hc
      exact ih df out n h hc'

theorem buildNutriCols_uniform (oc : List String) (padded : List (List Atom)) (n : Nat)
    (hp : padded.length = n) :
    ∀ col ∈ buildNutriCols oc padded, col.cells.length = n := by
  intro col hcol
  unfold buildNutriCols at hcol
  rcases List.mem_map.mp hcol with ⟨p, _, hceq⟩
  rw [← hceq]
  simpa using hp

theorem splitJoined_uniform (df : Table) (oc : List String) (lists : List Cell) (n : Nat)
    (h : uniformRows df n) (hl : lists.length = n) :
    uniformRows (splitJoined df oc lists) n := by
  unfold splitJoined
  intro col hcol
  rcases List.mem_append.mp hcol with h1 | h1
  · exact h col h1
  · exact buildNutriCols_uniform oc _ n (by simpa using hl) col h1

theorem split_uniform (df : Table) (nc : String) (oc : List String) (dr : Bool)
    (n : Nat) (out : Table) (h : uniformRows df n)
    (hs : split_nutrition_columns df nc oc dr = .ok out) : uniformRows out n := by
  unfold split_nutrition_columns at hs
  by_cases hmem : nc ∈ df.columns
  · rw [if_pos hmem] at hs
    cases ha : applySeries ensure_list_or_none (df.getCol nc) with
    | error e => rw [ha] at hs; simp at hs
    | ok lists =>
      rw [ha] at hs
      simp only [] at hs
      have hl : lists.length = n := by
        rw [applySeries_ok_length ensure_list_or_none _ _ ha]
        exact getCol_length_of_mem df nc n h hmem
      by_cases hd : oc.filter (fun c => decide (c ∈ df.columns)) = []
      · rw [if_pos hd] at hs
        by_cases hdr : dr ∧ nc ∈ (splitJoined df oc lists).columns
        · rw [if_pos hdr] at hs
          simp at hs
          rw [← hs]
          exact uniformRows_dropCol _ nc n (splitJoined_uniform df oc lists n h hl)
        · rw [if_neg hdr] at hs
          simp at hs
          rw [← hs]
          exact splitJoined_uniform df oc lists n h hl
      · rw [if_neg hd] at hs
        simp at hs
  · rw [if_neg hmem] at hs
    simp at hs
    rw [← hs]
    exact h

theorem addPartCol_uniform (t : Table) (sc part : String) (f : Cell → Cell)
    (parts : List String) (n : Nat) (h : uniformRows t n) (hsc : sc ∈ t.columns) :
    uniformRows (addPartCol t sc part f parts) n := by
  unfold addPartCol
  by_cases hp : part ∈ parts
  · rw [if_pos hp]
    refine uniformRows_setCol t part _ n h ?_
    rw [List.length_map]
    exact getCol_length_of_mem t sc n h hsc
  · rw [if_neg hp]
    exact h

theorem mem_columns_addPartCol (t : Table) (m sc part : String) (f : Cell → Cell)
    (parts : List String) (hm : m ∈ t.columns) :
    m ∈ (addPartCol t sc part f parts).columns := by
  unfold addPartCol
  by_cases hp : part ∈ parts
  · rw [if_pos hp]
    exact mem_columns_setCol t m part _ hm
  · rw [if_neg hp]
    exact hm

theorem temporal_uniform (df : Table) (sc : String) (ap : Bool) (ps : List String)
    (n : Nat) (h : uniformRows df n) :
    uniformRows (convert_temporal_columns df sc ap ps) n := by
  unfold convert_temporal_columns
  by_cases hmem : sc ∈ df.columns
  · rw [if_pos hmem]
    have h0 : uniformRows (df.setCol sc ((df.getCol sc).map toDatetimeCell)) n := by
      refine uniformRows_setCol df sc _ n h ?_
      rw [List.length_map]
      exact getCol_length_of_mem df sc n h hmem
    have hm0 : sc ∈ (df.setCol sc ((df.getCol sc).map toDatetimeCell)).columns :=
      mem_columns_setCol_self df sc _
    by_cases hap : ap = true
    · rw [if_pos hap]
      have h1 := addPartCol_uniform _ sc "year" dtYear ps n h0 hm0
      have hm1 := mem_columns_addPartCol _ sc sc "year" dtYear ps hm0
      have h2 := addPartCol_uniform _ sc "month" dtMonth ps n h1 hm1
      have hm2 := mem_columns_addPartCol _ sc sc "month" dtMonth ps hm1
      have h3 := addPartCol_uniform _ sc "day" dtDay ps n h2 hm2
      have hm3 := mem_columns_addPartCol _ sc sc "day" dtDay ps hm2
      exact addPartCol_uniform _ sc "dayofweek" dtDayofweek ps n h3 hm3
    · rw [if_neg hap]
      exact h0
  · rw [if_neg hmem]
    exact h

theorem category_uniform (df : Table) (cc : String) (n : Nat) (h : uniformRows df n) :
    uniformRows (convert_contributor_to_category df cc) n := by
  unfold convert_contributor_to_category
  by_cases hmem : cc ∈ df.columns
  · rw [if_pos hmem]
    exact uniformRows_astypeCategory df cc n h
  · rw [if_neg hmem]
    exact h

theorem pipeline_uniform (df : Table) (cfg : Option RecipeConversionConfig)
    (n : Nat) (out : Table) (h : uniformRows df n)
    (hp : convert_recipes_for_univariate df cfg = .ok out) : uniformRows out n := by
  unfold convert_recipes_for_univariate convert_recipes_with at hp
  cases h1 : convert_list_like_columns df (cfg.getD RecipeConversionConfig.default).list_like_cols with
  | error e => rw [h1] at hp; simp at hp
  | ok df1 =>
    rw [h1] at hp
    simp only [] at hp
    have hu1 : uniformRows df1 n := convert_list_like_uniform _ df df1 n h h1
    by_cases hmem : (cfg.getD RecipeConversionConfig.default).nutrition_col ∈ df1.columns
    · rw [if_pos hmem] at hp
      cases h2 : split_nutrition_columns df1 (cfg.getD RecipeConversionConfig.default).nutrition_col
          (pipelineSplitOutputCols (cfg.getD RecipeConversionConfig.default))
          (cfg.getD RecipeConversionConfig.default).drop_original_nutrition with
      | error e => rw [h2] at hp; simp at hp
      | ok df2 =>
        rw [h2] at hp
        simp at hp
        rw [← hp]
        exact category_uniform _ _ n (temporal_uniform df2 _ _ _ n (split_uniform df1 _ _ _ n df2 hu1 h2))
    · rw [if_neg hmem] at hp
      simp only [] at hp
      have hp' : (Except.ok (convert_contributor_to_category
          (convert_temporal_columns df1 (cfg.getD RecipeConversionConfig.default).temporal_col
            (cfg.getD RecipeConversionConfig.default).add_temporal_parts
            (cfg.getD RecipeConversionConfig.default).temporal_parts)
          (cfg.getD RecipeConversionConfig.default).contributor_col) : Except PyErr Table) = .ok out := hp
      simp at hp'
      rw [← hp']
      exact category_uniform _ _ n (temporal_uniform df1 _ _ _ n hu1)

theorem convert_list_like_absent :
    ∀ (cols : List String) (df : Table), (∀ c ∈ cols, c ∉ df.columns) →
      convert_list_like_columns df cols = .ok df := by
  intro cols
  induction cols with
  | nil => intro df _; rfl
  | cons c rest ih =>
    intro df h
    unfold convert_list_like_columns
    rw [if_neg (h c (by simp))]
    exact ih df (fun x hx => h x (by simp [hx]))

theorem split_absent (df : Table) (nc : String) (oc : List String) (dr : Bool)
    (h : nc ∉ df.columns) : split_nutrition_columns df nc oc dr = .ok df := by
  unfold split_nutrition_columns
  rw [if_neg h]

theorem temporal_absent (df : Table) (sc : String) (ap : Bool) (ps : List String)
    (h : sc ∉ df.columns) : convert_temporal_columns df sc ap ps = df := by
  unfold convert_temporal_columns
  rw [if_neg h]

theorem category_absent (df : Table) (cc : String)
    (h : cc ∉ df.columns) : convert_contributor_to_category df cc = df := by
  unfold convert_contributor_to_category
  rw [if_neg h]

/-- The part names `convert_temporal_columns` knows how to derive. -/
def allowedParts : List String :=
  ["year", "month", "day", "dayofweek"]

theorem getCol_addPartCol_ne (t : Table) (sc part : String) (f : Cell → Cell)
    (parts : List String) (m : String) (hm : m ≠ part) :
    (addPartCol t sc part f parts).getCol m = t.getCol m := by
  unfold addPartCol
  by_cases hp : part ∈ parts
  · rw [if_pos hp]
    exact getCol_setCol_ne t m part _ hm
  · rw [if_neg hp]

theorem getCol_addPartCol_self (t : Table) (sc part : String) (f : Cell → Cell)
    (parts : List String) (hp : part ∈ parts) :
    (addPartCol t sc part f parts).getCol part = (t.getCol sc).map f := by
  unfold addPartCol
  rw [if_pos hp]
  exact getCol_setCol_self t part _

theorem mem_columns_addPartCol_self (t : Table) (sc part : String) (f : Cell → Cell)
    (parts : List String) (hp : part ∈ parts) :
    part ∈ (addPartCol t sc part f parts).columns := by
  unfold addPartCol
  rw [if_pos hp]
  exact mem_columns_setCol_self t part _

theorem addPartCol_filter (t : Table) (sc part : String) (f : Cell → Cell)
    (ps : List String) (hp : part ∈ allowedParts) :
    addPartCol t sc part f (ps.filter (fun p => decide (p ∈ allowedParts))) =
      addPartCol t sc part f ps := by
  unfold addPartCol
  have hiff : (part ∈ ps.filter (fun p => decide (p ∈ allowedParts))) ↔ part ∈ ps := by
    simp [List.mem_filter, hp]
  by_cases h : part ∈ ps
  · rw [if_pos h, if_pos (hiff.mpr h)]
  · rw [if_neg h, if_neg (fun hh => h (hiff.mp hh))]

theorem temporal_filter_parts (df : Table) (sc : String) (ap : Bool) (ps : List String) :
    convert_temporal_columns df sc ap (ps.filter (fun p => decide (p ∈ allowedParts))) =
      convert_temporal_columns df sc ap ps := by
  unfold convert_temporal_columns
  by_cases hmem : sc ∈ df.columns
  · rw [if_pos hmem]
    by_cases hap : ap = true
    · rw [if_pos hap]
      rw [addPartCol_filter _ sc "year" dtYear ps (by decide)]
      rw [addPartCol_filter _ sc "month" dtMonth ps (by decide)]
      rw [addPartCol_filter _ sc "day" dtDay ps (by decide)]
      rw [addPartCol_filter _ sc "dayofweek" dtDayofweek ps (by decide)]
      rw [if_pos hmem, if_pos hap]
    · rw [if_neg hap, if_pos hmem, if_neg hap]
  · rw [if_neg hmem, if_neg hmem]

theorem convert_list_like_single (df out : Table) (c : String) (hc : c ∈ df.columns)
    (h : convert_list_like_columns df [c] = .ok out) :
    applySeries ensure_list_or_none (df.getCol c) = .ok (out.getCol c) := by
  unfold convert_list_like_columns at h
  rw [if_pos hc] at h
  unfold Table.applyCol at h
  cases hs : applySeries ensure_list_or_none (df.getCol c) with
  | error e => rw [hs] at h; simp at h
  | ok cells =>
    rw [hs] at h
    simp only [] at h
    unfold convert_list_like_columns at h
    simp at h
    rw [← h, getCol_setCol_self]

deriving instance DecidableEq for Except

/-! ### Settling the claims -/

/-- One-row table whose tags cell is the string "[1, 2]". -/
def C1_table : Table :=
  ⟨[⟨"tags", false, [Cell.str "[1, 2]"]⟩]⟩

/-- The pipeline's output on `C1_table`: the tags cell is now a native
two-element list. -/
def C1_out : Table :=
  ⟨[⟨"tags", false, [Cell.list [Atom.int 1, Atom.int 2]]⟩]⟩

/-- Claim C1: refuted - the pipeline is not idempotent. On `C1_table`
the first run succeeds and parses the tags cell to a native two-element
list, but re-running the pipeline on that output raises the
ambiguous-truth ValueError, because `_ensure_list_or_none` truth-tests
`pd.isna` of a native multi-element list. -/
theorem C1_pipeline_not_idempotent :
    convert_recipes_for_univariate C1_table none = Except.ok C1_out
    ∧ convert_recipes_for_univariate C1_out none = Except.error PyErr.ambiguousTruth :=
  ⟨rfl, rfl⟩

/-- One-row table whose nutrition cell is a native two-element list;
none of the 7 output names is present. -/
def C2_table : Table :=
  ⟨[⟨"nutrition", false, [Cell.list [Atom.int 1, Atom.int 2]]⟩]⟩

/-- Table with string nutrition cells and two pre-existing output
columns. -/
def C2_table_collision : Table :=
  ⟨[⟨"nutrition", false, [Cell.str "[1]"]⟩,
    ⟨"calories", false, [Cell.int 0]⟩,
    ⟨"sugar", false, [Cell.int 0]⟩]⟩

/-- Claim C2: refuted - `split_nutrition_columns` does not raise only
on name collisions. On `C2_table` the source column is present and no
output name collides, yet the call raises the ambiguous-truth
ValueError (from `pd.isna` on the native list cell). The collision
error itself does carry every colliding name, as the second part
shows. -/
theorem C2_split_raises_without_collision :
    split_nutrition_columns C2_table "nutrition" NUTRITION_COLS false
      = Except.error PyErr.ambiguousTruth
    ∧ NUTRITION_COLS.filter (fun c => decide (c ∈ C2_table.columns)) = []
    ∧ split_nutrition_columns C2_table_collision "nutrition" NUTRITION_COLS false
        = Except.error (PyErr.nameCollision ["calories", "sugar"]) :=
  ⟨rfl, by decide, rfl⟩

/-- One-row table whose nutrition cell is a native 7-element list. -/
def C3_table : Table :=
  ⟨[⟨"nutrition", false,
     [Cell.list [Atom.int 1, Atom.int 2, Atom.int 3, Atom.int 4, Atom.int 5, Atom.int 6, Atom.int 7]]⟩]⟩

/-- Four-row table with string-encoded nutrition cells of length 7, 5
and 9, and one scalar cell. -/
def C3_table_str : Table :=
  ⟨[⟨"nutrition", false,
     [Cell.str "[1, 2, 3, 4, 5, 6, 7]",
      Cell.str "[1, 2, 3, 4, 5]",
      Cell.str "[1, 2, 3, 4, 5, 6, 7, 8, 9]",
      Cell.int 5]⟩]⟩

/-- What the splitter returns on `C3_table_str`: 7 new columns in
order, the short row right-padded with absent, the long row truncated
to its first 7 entries, the scalar row all-absent; row count 4
preserved everywhere. -/
def C3_out_str : Table :=
  ⟨[⟨"nutrition", false,
     [Cell.str "[1, 2, 3, 4, 5, 6, 7]",
      Cell.str "[1, 2, 3, 4, 5]",
      Cell.str "[1, 2, 3, 4, 5, 6, 7, 8, 9]",
      Cell.int 5]⟩,
    ⟨"calories", false, [Cell.int 1, Cell.int 1, Cell.int 1, Cell.absent]⟩,
    ⟨"total_fat", false, [Cell.int 2, Cell.int 2, Cell.int 2, Cell.absent]⟩,
    ⟨"sugar", false, [Cell.int 3, Cell.int 3, Cell.int 3, Cell.absent]⟩,
    ⟨"sodium", false, [Cell.int 4, Cell.int 4, Cell.int 4, Cell.absent]⟩,
    ⟨"protein", false, [Cell.int 5, Cell.int 5, Cell.int 5, Cell.absent]⟩,
    ⟨"saturated_fat", false, [Cell.int 6, Cell.absent, Cell.int 6, Cell.absent]⟩,
    ⟨"carbohydrates", false, [Cell.int 7, Cell.absent, Cell.int 7, Cell.absent]⟩]⟩

/-- Claim C3: refuted on native sequences - a nutrition cell that
already is a 7-element native list makes `split_nutrition_columns`
raise the ambiguous-truth ValueError instead of mapping its entries to
the 7 positional columns. The described pad/truncate/absent behaviour
does hold for string-encoded cells, as the second part shows, and the
source column is kept when the drop flag is unset and removed when it
is set. -/
theorem C3_split_raises_on_native_sequence :
    split_nutrition_columns C3_table "nutrition" NUTRITION_COLS false
      = Except.error PyErr.ambiguousTruth
    ∧ split_nutrition_columns C3_table_str "nutrition" NUTRITION_COLS false
        = Except.ok C3_out_str
    ∧ split_nutrition_columns C3_table_str "nutrition" NUTRITION_COLS true
        = Except.ok (C3_out_str.dropCol "nutrition") :=
  ⟨rfl, rfl, rfl⟩

/-- One-row table whose tags cell is a native two-element list. -/
def C4_table : Table :=
  ⟨[⟨"tags", false, [Cell.list [Atom.int 1, Atom.int 2]]⟩]⟩

/-- Claim C4: refuted on native sequences - `convert_list_like_columns`
raises the ambiguous-truth ValueError on a cell that is already a
native multi-element list instead of returning it unchanged, and a
one-element list holding the absent marker collapses to absent instead
of passing through. The string-parsing, absent and parse-failure cases
do behave as claimed. -/
theorem C4_parser_raises_on_native_sequence :
    convert_list_like_columns C4_table ["tags"] = Except.error PyErr.ambiguousTruth
    ∧ ensure_list_or_none (Cell.str "[1, 2, 3]")
        = Except.ok (Cell.list [Atom.int 1, Atom.int 2, Atom.int 3])
    ∧ ensure_list_or_none (Cell.str "not-a-list") = Except.ok Cell.absent
    ∧ ensure_list_or_none Cell.absent = Except.ok Cell.absent
    ∧ ensure_list_or_none (Cell.list [Atom.int 1, Atom.int 2])
        = Except.error PyErr.ambiguousTruth
    ∧ ensure_list_or_none (Cell.list [Atom.absent]) = Except.ok Cell.absent :=
  ⟨rfl, rfl, rfl, rfl, rfl, rfl⟩

/-- Claim C6: confirmed - each of the four stages returns its input
table unchanged when the configured source column is absent (for the
list parser: when every configured name is absent). -/
theorem C6_missing_source_column_noop (df : Table) (cols : List String)
    (nc sc cc : String) (oc : List String) (dr ap : Bool) (ps : List String)
    (h1 : ∀ c ∈ cols, c ∉ df.columns) (h2 : nc ∉ df.columns)
    (h3 : sc ∉ df.columns) (h4 : cc ∉ df.columns) :
    convert_list_like_columns df cols = Except.ok df
    ∧ split_nutrition_columns df nc oc dr = Except.ok df
    ∧ convert_temporal_columns df sc ap ps = df
    ∧ convert_contributor_to_category df cc = df :=
  ⟨convert_list_like_absent cols df h1, split_absent df nc oc dr h2,
   temporal_absent df sc ap ps h3, category_absent df cc h4⟩

/-- A table with a single unrelated column. -/
def C6_table : Table :=
  ⟨[⟨"x", false, [Cell.int 1]⟩]⟩

theorem C6_witness :
    (∀ c ∈ ["tags", "ingredients"], c ∉ C6_table.columns)
    ∧ "nutrition" ∉ C6_table.columns
    ∧ "submitted" ∉ C6_table.columns
    ∧ "contributor_id" ∉ C6_table.columns
    ∧ (convert_list_like_columns C6_table ["tags", "ingredients"] = Except.ok C6_table
        ∧ split_nutrition_columns C6_table "nutrition" NUTRITION_COLS true = Except.ok C6_table
        ∧ convert_temporal_columns C6_table "submitted" true ["year"] = C6_table
        ∧ convert_contributor_to_category C6_table "contributor_id" = C6_table) :=
  ⟨by decide, by decide, by decide, by decide,
   C6_missing_source_column_noop C6_table ["tags", "ingredients"] "nutrition" "submitted"
     "contributor_id" NUTRITION_COLS true true ["year"]
     (by decide) (by decide) (by decide) (by decide)⟩

/-- Claim C10: confirmed - when the source column is missing the
splitter returns the table unchanged without performing the collision
check, whatever the output names and drop flag. -/
theorem C10_no_collision_check_when_source_missing (df : Table) (nc : String)
    (oc : List String) (dr : Bool) (h : nc ∉ df.columns) :
    split_nutrition_columns df nc oc dr = Except.ok df :=
  split_absent df nc oc dr h

/-- A table already containing all 7 nutrition output columns but no
nutrition source column. -/
def C10_table : Table :=
  ⟨[⟨"calories", false, [Cell.int 0]⟩,
    ⟨"total_fat", false, [Cell.int 0]⟩,
    ⟨"sugar", false, [Cell.int 0]⟩,
    ⟨"sodium", false, [Cell.int 0]⟩,
    ⟨"protein", false, [Cell.int 0]⟩,
    ⟨"saturated_fat", false, [Cell.int 0]⟩,
    ⟨"carbohydrates", false, [Cell.int 0]⟩]⟩

theorem C10_witness :
    "nutrition" ∉ C10_table.columns
    ∧ split_nutrition_columns C10_table "nutrition" NUTRITION_COLS false
        = Except.ok C10_table :=
  ⟨by decide,
   C10_no_collision_check_when_source_missing C10_table "nutrition" NUTRITION_COLS false
     (by decide)⟩

/-- Modelled from the spec: the configuration surface of section 6,
which lists the nutrition output names among the settings, next to the
seven settings the code's record carries. -/
structure SpecConfigSurface where
  list_like_cols : List String
  nutrition_col : String
  nutrition_output_cols : List String
  temporal_col : String
  add_temporal_parts : Bool
  temporal_parts : List String
  contributor_col : String
  drop_original_nutrition : Bool

/-- Modelled from the spec: the output names the splitter writes under
a given spec-level configuration. -/
def SpecConfigSurface.splitOutputCols (sc : SpecConfigSurface) : List String :=
  sc.nutrition_output_cols

/-- Forget a spec-level configuration down to the information the
code's `RecipeConversionConfig` record can carry: the record has no
field for the nutrition output names, so they are dropped. -/
def SpecConfigSurface.toCode (sc : SpecConfigSurface) : RecipeConversionConfig :=
  ⟨sc.list_like_cols, sc.nutrition_col, sc.temporal_col, sc.add_temporal_parts,
   sc.temporal_parts, sc.contributor_col, sc.drop_original_nutrition⟩

/-- A spec-level configuration choosing custom nutrition output names. -/
def C9_specConfig : SpecConfigSurface :=
  ⟨[], "nutrition", ["n1", "n2", "n3", "n4", "n5", "n6", "n7"], "submitted", false, [],
   "contributor_id", false⟩

/-- One-row table with a string-encoded nutrition cell. -/
def C9_table : Table :=
  ⟨[⟨"nutrition", false, [Cell.str "[1, 2, 3, 4, 5, 6, 7]"]⟩]⟩

/-- What the pipeline produces on `C9_table` under
`C9_specConfig.toCode`: the hardcoded names, not the configured ones. -/
def C9_out : Table :=
  ⟨[⟨"nutrition", false, [Cell.str "[1, 2, 3, 4, 5, 6, 7]"]⟩,
    ⟨"calories", false, [Cell.int 1]⟩,
    ⟨"total_fat", false, [Cell.int 2]⟩,
    ⟨"sugar", false, [Cell.int 3]⟩,
    ⟨"sodium", false, [Cell.int 4]⟩,
    ⟨"protein", false, [Cell.int 5]⟩,
    ⟨"saturated_fat", false, [Cell.int 6]⟩,
    ⟨"carbohydrates", false, [Cell.int 7]⟩]⟩

/-- Claim C9: refuted as stated - the configuration record does not
expose the nutrition output names. A spec-level configuration choosing
the names n1..n7 loses them when erased to the code's record, and the
pipeline run under that record still writes the hardcoded
`NUTRITION_COLS` (here "calories", not "n1"). -/
theorem C9_no_output_names_setting :
    C9_specConfig.splitOutputCols = ["n1", "n2", "n3", "n4", "n5", "n6", "n7"]
    ∧ pipelineSplitOutputCols C9_specConfig.toCode = NUTRITION_COLS
    ∧ C9_specConfig.splitOutputCols ≠ pipelineSplitOutputCols C9_specConfig.toCode
    ∧ convert_recipes_for_univariate C9_table (some C9_specConfig.toCode) = Except.ok C9_out
    ∧ "calories" ∈ C9_out.columns
    ∧ "n1" ∉ C9_out.columns :=
  ⟨rfl, rfl, by decide, rfl, by decide, by decide⟩

/-- Claim C9 (amended): the record exposes exactly the seven settings
list-like columns, nutrition column, temporal column, add-parts flag,
temporal parts, contributor column and drop flag, with the spec's
stated defaults; the nutrition output names are not a setting - the
pipeline passes the fixed constant `NUTRITION_COLS`, in the stated
order, to the splitter for every configuration. -/
theorem C9_config_defaults :
    RecipeConversionConfig.default =
      ⟨["tags", "ingredients", "steps", "nutrition"], "nutrition", "submitted", true,
       ["year", "month"], "contributor_id", false⟩
    ∧ NUTRITION_COLS =
        ["calories", "total_fat", "sugar", "sodium", "protein", "saturated_fat", "carbohydrates"]
    ∧ (∀ cfg : RecipeConversionConfig, pipelineSplitOutputCols cfg = NUTRITION_COLS) :=
  ⟨rfl, rfl, fun _ => rfl⟩

/-- Claim C5: confirmed - `convert_temporal_columns` parses the source
column with parse-or-absent semantics (the invalid calendar date
"2019-02-30" coerces to absent; the embedded stage is a total function,
so no input raises), and with the add-parts flag set it adds one column
per requested part among year, month, day and dayofweek, each computed
cell-wise from the parsed timestamps, with absent timestamps producing
absent part values; requested part names outside that set are ignored
without error. Stated for a source column not itself named like a
part. -/
theorem C5_temporal_coerce_and_parts (df : Table) (c : String) (ps : List String)
    (hmem : c ∈ df.columns) (hna : c ∉ allowedParts) :
    (convert_temporal_columns df c true ps).getCol c = (df.getCol c).map toDatetimeCell
    ∧ toDatetimeCell (Cell.str "2019-02-30") = Cell.absent
    ∧ toDatetimeCell (Cell.str "2020-01-15") = Cell.date 2020 1 15
    ∧ dtYear Cell.absent = Cell.absent ∧ dtMonth Cell.absent = Cell.absent
    ∧ dtDay Cell.absent = Cell.absent ∧ dtDayofweek Cell.absent = Cell.absent
    ∧ ("year" ∈ ps → "year" ∈ (convert_temporal_columns df c true ps).columns
        ∧ (convert_temporal_columns df c true ps).getCol "year"
            = ((df.getCol c).map toDatetimeCell).map dtYear)
    ∧ ("month" ∈ ps → "month" ∈ (convert_temporal_columns df c true ps).columns
        ∧ (convert_temporal_columns df c true ps).getCol "month"
            = ((df.getCol c).map toDatetimeCell).map dtMonth)
    ∧ ("day" ∈ ps → "day" ∈ (convert_temporal_columns df c true ps).columns
        ∧ (convert_temporal_columns df c true ps).getCol "day"
            = ((df.getCol c).map toDatetimeCell).map dtDay)
    ∧ ("dayofweek" ∈ ps → "dayofweek" ∈ (convert_temporal_columns df c true ps).columns
        ∧ (convert_temporal_columns df c true ps).getCol "dayofweek"
            = ((df.getCol c).map toDatetimeCell).map dtDayofweek)
    ∧ convert_temporal_columns df c true (ps.filter (fun p => decide (p ∈ allowedParts)))
        = convert_temporal_columns df c true ps := by
  have hcy : c ≠ "year" := fun h => hna (by rw [h]; decide)
  have hcm : c ≠ "month" := fun h => hna (by rw [h]; decide)
  have hcd : c ≠ "day" := fun h => hna (by rw [h]; decide)
  have hcw : c ≠ "dayofweek" := fun h => hna (by rw [h]; decide)
  have hconv : convert_temporal_columns df c true ps =
      addPartCol (addPartCol (addPartCol (addPartCol
        (df.setCol c ((df.getCol c).map toDatetimeCell)) c "year" dtYear ps)
        c "month" dtMonth ps) c "day" dtDay ps) c "dayofweek" dtDayofweek ps := by
    unfold convert_temporal_columns
    rw [if_pos hmem, if_pos rfl]
  refine ⟨?_, rfl, rfl, rfl, rfl, rfl, rfl, ?_, ?_, ?_, ?_, ?_⟩
  · rw [hconv]
    rw [getCol_addPartCol_ne _ c "dayofweek" dtDayofweek ps c hcw]
    rw [getCol_addPartCol_ne _ c "day" dtDay ps c hcd]
    rw [getCol_addPartCol_ne _ c "month" dtMonth ps c hcm]
    rw [getCol_addPartCol_ne _ c "year" dtYear ps c hcy]
    exact getCol_setCol_self df c _
  · intro hy
    constructor
    · rw [hconv]
      exact mem_columns_addPartCol _ "year" c "dayofweek" dtDayofweek ps
        (mem_columns_addPartCol _ "year" c "day" dtDay ps
          (mem_columns_addPartCol _ "year" c "month" dtMonth ps
            (mem_columns_addPartCol_self _ c "year" dtYear ps hy)))
    · rw [hconv]
      rw [getCol_addPartCol_ne _ c "dayofweek" dtDayofweek ps "year" (by decide)]
      rw [getCol_addPartCol_ne _ c "day" dtDay ps "year" (by decide)]
      rw [getCol_addPartCol_ne _ c "month" dtMonth ps "year" (by decide)]
      rw [getCol_addPartCol_self _ c "year" dtYear ps hy]
      rw [getCol_setCol_self]
  · intro hm
    constructor
    · rw [hconv]
      exact mem_columns_addPartCol _ "month" c "dayofweek" dtDayofweek ps
        (mem_columns_addPartCol _ "month" c "day" dtDay ps
          (mem_columns_addPartCol_self _ c "month" dtMonth ps hm))
    · rw [hconv]
      rw [getCol_addPartCol_ne _ c "dayofweek" dtDayofweek ps "month" (by decide)]
      rw [getCol_addPartCol_ne _ c "day" dtDay ps "month" (by decide)]
      rw [getCol_addPartCol_self _ c "month" dtMonth ps hm]
      rw [getCol_addPartCol_ne _ c "year" dtYear ps c hcy]
      rw [getCol_setCol_self]
  · intro hd
    constructor
    · rw [hconv]
      exact mem_columns_addPartCol _ "day" c "dayofweek" dtDayofweek ps
        (mem_columns_addPartCol_self _ c "day" dtDay ps hd)
    · rw [hconv]
      rw [getCol_addPartCol_ne _ c "dayofweek" dtDayofweek ps "day" (by decide)]
      rw [getCol_addPartCol_self _ c "day" dtDay ps hd]
      rw [getCol_addPartCol_ne _ c "month" dtMonth ps c hcm]
      rw [getCol_addPartCol_ne _ c "year" dtYear ps c hcy]
      rw [getCol_setCol_self]
  · intro hw
    constructor
    · rw [hconv]
      exact mem_columns_addPartCol_self _ c "dayofweek" dtDayofweek ps hw
    · rw [hconv]
      rw [getCol_addPartCol_self _ c "dayofweek" dtDayofweek ps hw]
      rw [getCol_addPartCol_ne _ c "day" dtDay ps c hcd]
      rw [getCol_addPartCol_ne _ c "month" dtMonth ps c hcm]
      rw [getCol_addPartCol_ne _ c "year" dtYear ps c hcy]
      rw [getCol_setCol_self]
  · exact temporal_filter_parts df c true ps

/-- Three-row table with a valid date, an invalid calendar date and an
absent cell in the submitted column. -/
def C5_table : Table :=
  ⟨[⟨"submitted", false, [Cell.str "2020-01-15", Cell.str "2019-02-30", Cell.absent]⟩]⟩

theorem C5_witness :
    "submitted" ∈ C5_table.columns
    ∧ "submitted" ∉ allowedParts
    ∧ ((convert_temporal_columns C5_table "submitted" true ["year", "month", "bogus"]).getCol "submitted"
          = (C5_table.getCol "submitted").map toDatetimeCell
        ∧ toDatetimeCell (Cell.str "2019-02-30") = Cell.absent
        ∧ toDatetimeCell (Cell.str "2020-01-15") = Cell.date 2020 1 15
        ∧ dtYear Cell.absent = Cell.absent ∧ dtMonth Cell.absent = Cell.absent
        ∧ dtDay Cell.absent = Cell.absent ∧ dtDayofweek Cell.absent = Cell.absent
        ∧ ("year" ∈ ["year", "month", "bogus"] →
            "year" ∈ (convert_temporal_columns C5_table "submitted" true ["year", "month", "bogus"]).columns
            ∧ (convert_temporal_columns C5_table "submitted" true ["year", "month", "bogus"]).getCol "year"
                = ((C5_table.getCol "submitted").map toDatetimeCell).map dtYear)
        ∧ ("month" ∈ ["year", "month", "bogus"] →
            "month" ∈ (convert_temporal_columns C5_table "submitted" true ["year", "month", "bogus"]).columns
            ∧ (convert_temporal_columns C5_table "submitted" true ["year", "month", "bogus"]).getCol "month"
                = ((C5_table.getCol "submitted").map toDatetimeCell).map dtMonth)
        ∧ ("day" ∈ ["year", "month", "bogus"] →
            "day" ∈ (convert_temporal_columns C5_table "submitted" true ["year", "month", "bogus"]).columns
            ∧ (convert_temporal_columns C5_table "submitted" true ["year", "month", "bogus"]).getCol "day"
                = ((C5_table.getCol "submitted").map toDatetimeCell).map dtDay)
        ∧ ("dayofweek" ∈ ["year", "month", "bogus"] →
            "dayofweek" ∈ (convert_temporal_columns C5_table "submitted" true ["year", "month", "bogus"]).columns
            ∧ (convert_temporal_columns C5_table "submitted" true ["year", "month", "bogus"]).getCol "dayofweek"
                = ((C5_table.getCol "submitted").map toDatetimeCell).map dtDayofweek)
        ∧ convert_temporal_columns C5_table "submitted" true
              (["year", "month", "bogus"].filter (fun p => decide (p ∈ allowedParts)))
            = convert_temporal_columns C5_table "submitted" true ["year", "month", "bogus"]) :=
  ⟨by decide, by decide,
   C5_temporal_coerce_and_parts C5_table "submitted" ["year", "month", "bogus"]
     (by decide) (by decide)⟩


theorem lookupCol_append_notin (n : String) (l2 : List Column) :
    ∀ (l1 : List Column), hasCol n l1 = false →
      lookupCol n (l1 ++ l2) = lookupCol n l2 := by
  intro l1
  induction l1 with
  | nil => intro _; simp
  | cons c l ih =>
    intro h
    have hb : (c.name == n) = false := by
      by_cases hcb : c.name = n
      · exact absurd h (by simp [hasCol, hcb])
      · simp [hcb]
    have h' : hasCol n l = false := by simpa [hasCol, hb] using h
    simpa [lookupCol, hb] using ih h'

theorem getD_mem_of_lt {α : Type} (d : α) :
    ∀ (l : List α) (j : Nat), j < l.length → l.getD j d ∈ l := by
  intro l
  induction l with
  | nil => intro j hj; simp at hj
  | cons a l ih =>
    intro j hj
    cases j with
    | zero => simp
    | succ j' =>
      have hj' : j' < l.length := by simpa using hj
      simp only [List.getD_cons_succ]
      exact List.mem_cons.mpr (Or.inr (ih j' hj'))

theorem lookupCol_nutri_enumFrom (padded : List (List Atom)) :
    ∀ (oc : List String) (k j : Nat), oc.Nodup → j < oc.length →
      lookupCol (oc.getD j "") ((List.enumFrom k oc).map
          (fun p => ⟨p.2, false, padded.map (fun row => (row.getD p.1 Atom.absent).toCell)⟩))
        = some ⟨oc.getD j "", false,
            padded.map (fun row => (row.getD (k + j) Atom.absent).toCell)⟩ := by
  intro oc
  induction oc with
  | nil => intro k j _ hj; simp at hj
  | cons a oc ih =>
    intro k j hnd hj
    cases j with
    | zero => simp [List.enumFrom, lookupCol]
    | succ j' =>
      have hj' : j' < oc.length := by simpa using hj
      have hnd' : oc.Nodup := (List.nodup_cons.mp hnd).2
      have hnotin : a ∉ oc := (List.nodup_cons.mp hnd).1
      have hbeq : (a == oc.getD j' "") = false := by
        have hmm : oc.getD j' "" ∈ oc := getD_mem_of_lt "" oc j' hj'
        exact beq_eq_false_iff_ne.mpr (fun hEq => hnotin (hEq ▸ hmm))
      have harith : k + (j' + 1) = k + 1 + j' := by omega
      rw [List.getD_cons_succ]
      simp only [harith]
      have henum : List.enumFrom k (a :: oc) = (k, a) :: List.enumFrom (k + 1) oc := rfl
      rw [henum, List.map_cons]
      simp only [lookupCol, hbeq, Bool.false_eq_true, if_false]
      exact ih (k + 1) j' hnd' hj'

theorem getCol_buildNutri (df : Table) (oc : List String) (padded : List (List Atom))
    (j : Nat) (hnd : oc.Nodup) (hj : j < oc.length) (hnotin : oc.getD j "" ∉ df.columns) :
    (Table.mk (df.cols ++ buildNutriCols oc padded)).getCol (oc.getD j "")
      = padded.map (fun row => (row.getD j Atom.absent).toCell) := by
  unfold Table.getCol
  have hskip : hasCol (oc.getD j "") df.cols = false := by
    have hnt : ¬ hasCol (oc.getD j "") df.cols = true :=
      fun hh => hnotin ((hasCol_iff_mem (oc.getD j "") df.cols).mp hh)
    simpa using hnt
  rw [lookupCol_append_notin _ _ _ hskip]
  unfold buildNutriCols List.enum
  rw [lookupCol_nutri_enumFrom padded oc 0 j hnd hj]
  simp

theorem split_success_eq (df : Table) (nc : String) (oc : List String) (lists : List Cell)
    (hmem : nc ∈ df.columns)
    (hap : applySeries ensure_list_or_none (df.getCol nc) = .ok lists)
    (hflt : oc.filter (fun x => decide (x ∈ df.columns)) = []) :
    split_nutrition_columns df nc oc false
      = .ok (Table.mk (df.cols ++
          buildNutriCols oc (lists.map (fun x => pad_or_none x oc.length)))) := by
  unfold split_nutrition_columns
  rw [if_pos hmem, hap]
  simp only []
  rw [if_pos hflt]
  have hneg : ¬((false : Bool) ∧ nc ∈ (splitJoined df oc lists).columns) :=
    fun hcon => absurd hcon.1 (by decide)
  rw [if_neg hneg]
  rfl

theorem split_success_drop_eq (df : Table) (nc : String) (oc : List String) (lists : List Cell)
    (hmem : nc ∈ df.columns)
    (hap : applySeries ensure_list_or_none (df.getCol nc) = .ok lists)
    (hflt : oc.filter (fun x => decide (x ∈ df.columns)) = []) :
    split_nutrition_columns df nc oc true
      = .ok ((Table.mk (df.cols ++
          buildNutriCols oc (lists.map (fun x => pad_or_none x oc.length)))).dropCol nc) := by
  unfold split_nutrition_columns
  rw [if_pos hmem, hap]
  simp only []
  rw [if_pos hflt]
  have hmem2 : nc ∈ (splitJoined df oc lists).columns := by
    unfold splitJoined Table.columns
    rw [List.map_append]
    exact List.mem_append.mpr (Or.inl hmem)
  rw [if_pos ⟨by trivial, hmem2⟩]
  rfl

/-- Dispatch a requested part name to its cell-wise derivation
function (`.dt.year`, `.dt.month`, `.dt.day`, `.dt.dayofweek`). -/
def dtPartFun (p : String) : Cell → Cell :=
  if p = "year" then dtYear
  else if p = "month" then dtMonth
  else if p = "day" then dtDay
  else dtDayofweek

theorem temporal_getCol_source (df : Table) (sc : String) (ps : List String)
    (hmem : sc ∈ df.columns) (hna : sc ∉ allowedParts) :
    (convert_temporal_columns df sc true ps).getCol sc
      = (df.getCol sc).map toDatetimeCell := by
  have hcy : sc ≠ "year" := fun hEq => hna (by rw [hEq]; decide)
  have hcm : sc ≠ "month" := fun hEq => hna (by rw [hEq]; decide)
  have hcd : sc ≠ "day" := fun hEq => hna (by rw [hEq]; decide)
  have hcw : sc ≠ "dayofweek" := fun hEq => hna (by rw [hEq]; decide)
  unfold convert_temporal_columns
  rw [if_pos hmem, if_pos rfl]
  rw [getCol_addPartCol_ne _ sc "dayofweek" dtDayofweek ps sc hcw]
  rw [getCol_addPartCol_ne _ sc "day" dtDay ps sc hcd]
  rw [getCol_addPartCol_ne _ sc "month" dtMonth ps sc hcm]
  rw [getCol_addPartCol_ne _ sc "year" dtYear ps sc hcy]
  exact getCol_setCol_self df sc _

theorem temporal_getCol_part (df : Table) (sc p : String) (ps : List String)
    (hmem : sc ∈ df.columns) (hna : sc ∉ allowedParts)
    (hp : p ∈ allowedParts) (hps : p ∈ ps) :
    (convert_temporal_columns df sc true ps).getCol p
      = ((df.getCol sc).map toDatetimeCell).map (dtPartFun p) := by
  have hcy : sc ≠ "year" := fun hEq => hna (by rw [hEq]; decide)
  have hcm : sc ≠ "month" := fun hEq => hna (by rw [hEq]; decide)
  have hcd : sc ≠ "day" := fun hEq => hna (by rw [hEq]; decide)
  unfold convert_temporal_columns
  rw [if_pos hmem, if_pos rfl]
  rcases (by simpa [allowedParts] using hp :
      p = "year" ∨ p = "month" ∨ p = "day" ∨ p = "dayofweek") with rfl | rfl | rfl | rfl
  · rw [show dtPartFun "year" = dtYear from rfl]
    rw [getCol_addPartCol_ne _ sc "dayofweek" dtDayofweek ps "year" (by decide)]
    rw [getCol_addPartCol_ne _ sc "day" dtDay ps "year" (by decide)]
    rw [getCol_addPartCol_ne _ sc "month" dtMonth ps "year" (by decide)]
    rw [getCol_addPartCol_self _ sc "year" dtYear ps hps]
    rw [getCol_setCol_self]
  · rw [show dtPartFun "month" = dtMonth from rfl]
    rw [getCol_addPartCol_ne _ sc "dayofweek" dtDayofweek ps "month" (by decide)]
    rw [getCol_addPartCol_ne _ sc "day" dtDay ps "month" (by decide)]
    rw [getCol_addPartCol_self _ sc "month" dtMonth ps hps]
    rw [getCol_addPartCol_ne _ sc "year" dtYear ps sc hcy]
    rw [getCol_setCol_self]
  · rw [show dtPartFun "day" = dtDay from rfl]
    rw [getCol_addPartCol_ne _ sc "dayofweek" dtDayofweek ps "day" (by decide)]
    rw [getCol_addPartCol_self _ sc "day" dtDay ps hps]
    rw [getCol_addPartCol_ne _ sc "month" dtMonth ps sc hcm]
    rw [getCol_addPartCol_ne _ sc "year" dtYear ps sc hcy]
    rw [getCol_setCol_self]
  · rw [show dtPartFun "dayofweek" = dtDayofweek from rfl]
    rw [getCol_addPartCol_self _ sc "dayofweek" dtDayofweek ps hps]
    rw [getCol_addPartCol_ne _ sc "day" dtDay ps sc hcd]
    rw [getCol_addPartCol_ne _ sc "month" dtMonth ps sc hcm]
    rw [getCol_addPartCol_ne _ sc "year" dtYear ps sc hcy]
    rw [getCol_setCol_self]

theorem temporal_getCol_frame (df : Table) (sc : String) (ap : Bool) (ps : List String)
    (m : String) (hm1 : m ∉ allowedParts) (hm2 : m ≠ sc) :
    (convert_temporal_columns df sc ap ps).getCol m = df.getCol m := by
  have hmy : m ≠ "year" := fun hEq => hm1 (by rw [hEq]; decide)
  have hmm : m ≠ "month" := fun hEq => hm1 (by rw [hEq]; decide)
  have hmd : m ≠ "day" := fun hEq => hm1 (by rw [hEq]; decide)
  have hmw : m ≠ "dayofweek" := fun hEq => hm1 (by rw [hEq]; decide)
  unfold convert_temporal_columns
  by_cases hmem : sc ∈ df.columns
  · rw [if_pos hmem]
    by_cases hap : ap = true
    · rw [if_pos hap]
      rw [getCol_addPartCol_ne _ sc "dayofweek" dtDayofweek ps m hmw]
      rw [getCol_addPartCol_ne _ sc "day" dtDay ps m hmd]
      rw [getCol_addPartCol_ne _ sc "month" dtMonth ps m hmm]
      rw [getCol_addPartCol_ne _ sc "year" dtYear ps m hmy]
      exact getCol_setCol_ne df m sc _ hm2
    · rw [if_neg hap]
      exact getCol_setCol_ne df m sc _ hm2
  · rw [if_neg hmem]

theorem lookupCol_map_name_preserving (m : String) (f : Column → Column)
    (hf : ∀ a, (f a).name = a.name) :
    ∀ (l : List Column), lookupCol m (l.map f) = Option.map f (lookupCol m l) := by
  intro l
  induction l with
  | nil => simp [lookupCol]
  | cons c l ih =>
    rw [List.map_cons]
    unfold lookupCol
    rw [hf c]
    by_cases hm : (c.name == m) = true
    · rw [if_pos hm, if_pos hm]
      simp
    · rw [if_neg hm, if_neg hm, ih]

theorem getCol_astypeCategory (t : Table) (cc m : String) :
    (t.astypeCategory cc).getCol m = t.getCol m := by
  have hf : ∀ (a : Column),
      ((fun c => if c.name == cc then (⟨c.name, true, c.cells⟩ : Column) else c) a).name
        = a.name := by
    intro a
    by_cases hc : a.name = cc
    · simp [hc]
    · simp [hc]
  unfold Table.astypeCategory Table.getCol
  rw [lookupCol_map_name_preserving m _ hf]
  cases lookupCol m t.cols with
  | none => rfl
  | some c =>
    by_cases hc : c.name = cc
    · simp [hc]
    · simp [hc]

theorem columns_astypeCategory (t : Table) (cc : String) :
    (t.astypeCategory cc).columns = t.columns := by
  unfold Table.astypeCategory Table.columns
  have hname : ∀ (a : Column),
      (if a.name = cc then (⟨a.name, true, a.cells⟩ : Column) else a).name = a.name := by
    intro a
    by_cases hc : a.name = cc
    · simp [hc]
    · simp [hc]
  have hmap : ∀ (l : List Column),
      (l.map (fun c => if c.name == cc then ⟨c.name, true, c.cells⟩ else c)).map
          (fun c => c.name)
        = l.map (fun c => c.name) := by
    intro l
    simp only [List.map_map]
    refine List.map_congr_left (fun a _ => ?_)
    simpa using hname a
  exact hmap t.cols

theorem getCol_convert_category (df : Table) (cc m : String) :
    (convert_contributor_to_category df cc).getCol m = df.getCol m := by
  unfold convert_contributor_to_category
  by_cases hmem : cc ∈ df.columns
  · rw [if_pos hmem]
    exact getCol_astypeCategory df cc m
  · rw [if_neg hmem]

theorem columns_convert_category (df : Table) (cc : String) :
    (convert_contributor_to_category df cc).columns = df.columns := by
  unfold convert_contributor_to_category
  by_cases hmem : cc ∈ df.columns
  · rw [if_pos hmem]
    exact columns_astypeCategory df cc
  · rw [if_neg hmem]

theorem convert_list_like_single_frame (df out : Table) (c m : String) (hmc : m ≠ c)
    (h : convert_list_like_columns df [c] = .ok out) : out.getCol m = df.getCol m := by
  unfold convert_list_like_columns at h
  by_cases hcm : c ∈ df.columns
  · rw [if_pos hcm] at h
    unfold Table.applyCol at h
    cases hs : applySeries ensure_list_or_none (df.getCol c) with
    | error e => rw [hs] at h; simp at h
    | ok cells =>
      rw [hs] at h
      simp only [] at h
      unfold convert_list_like_columns at h
      simp at h
      rw [← h]
      exact getCol_setCol_ne df m c cells hmc
  · rw [if_neg hcm] at h
    simp only [] at h
    unfold convert_list_like_columns at h
    simp at h
    rw [← h]

theorem pipeline_decomposition (df df1 df2 : Table) (rcfg : RecipeConversionConfig)
    (h1 : convert_list_like_columns df rcfg.list_like_cols = .ok df1)
    (h2 : (if rcfg.nutrition_col ∈ df1.columns then
             split_nutrition_columns df1 rcfg.nutrition_col (pipelineSplitOutputCols rcfg)
               rcfg.drop_original_nutrition
           else Except.ok df1) = Except.ok df2) :
    convert_recipes_for_univariate df (some rcfg)
      = .ok (convert_contributor_to_category
          (convert_temporal_columns df2 rcfg.temporal_col rcfg.add_temporal_parts
            rcfg.temporal_parts)
          rcfg.contributor_col) := by
  unfold convert_recipes_for_univariate convert_recipes_with
  simp only [Option.getD_some]
  rw [h1]
  simp only []
  rw [h2]

/-- Claim C8: confirmed - every stage and the full pipeline preserve
row count and row order. Whenever a stage or the pipeline returns a
table, every column holds exactly the input row count `n` of cells
(conjuncts 1-5); and each stage derives every output row from the
input row at the same position: the list parser maps each cell at row
`i` to the output cell at row `i` and leaves other columns untouched
(conjuncts 6-7); the splitter keeps the input columns verbatim, in
order, and appends one column per output name whose rows are the
positional entries of the coerced-and-padded input rows (conjuncts
8-10); the temporal converter rewrites the source column cell-wise,
derives each part column cell-wise from it and leaves unrelated
columns untouched (conjuncts 11-13); the category caster changes no
cell and no column name (conjuncts 14-15); and the pipeline output is
exactly the composition of the four stages (conjunct 16). -/
theorem C8_row_count_preserved (df out1 out2 out5 outc : Table) (n i : Nat)
    (cols : List String) (nc : String) (oc : List String) (dr ap : Bool)
    (sc cc c : String) (ps : List String) (cfg : Option RecipeConversionConfig)
    (df1 df2 : Table) (j : Nat) (m p : String) (lists : List Cell)
    (padded : List (List Atom)) (rcfg : RecipeConversionConfig)
    (h : uniformRows df n) :
    (convert_list_like_columns df cols = Except.ok out1 → uniformRows out1 n)
    ∧ (split_nutrition_columns df nc oc dr = Except.ok out2 → uniformRows out2 n)
    ∧ uniformRows (convert_temporal_columns df sc ap ps) n
    ∧ uniformRows (convert_contributor_to_category df cc) n
    ∧ (convert_recipes_for_univariate df cfg = Except.ok out5 → uniformRows out5 n)
    ∧ (convert_list_like_columns df [c] = Except.ok outc → c ∈ df.columns → i < n →
        ensure_list_or_none ((df.getCol c).getD i Cell.absent)
          = Except.ok ((outc.getCol c).getD i Cell.absent))
    ∧ (convert_list_like_columns df [c] = Except.ok outc → m ≠ c →
        outc.getCol m = df.getCol m)
    ∧ (nc ∈ df.columns → applySeries ensure_list_or_none (df.getCol nc) = Except.ok lists →
        oc.filter (fun x => decide (x ∈ df.columns)) = [] →
        split_nutrition_columns df nc oc false
          = Except.ok (Table.mk (df.cols ++
              buildNutriCols oc (lists.map (fun x => pad_or_none x oc.length)))))
    ∧ (nc ∈ df.columns → applySeries ensure_list_or_none (df.getCol nc) = Except.ok lists →
        oc.filter (fun x => decide (x ∈ df.columns)) = [] →
        split_nutrition_columns df nc oc true
          = Except.ok ((Table.mk (df.cols ++
              buildNutriCols oc (lists.map (fun x => pad_or_none x oc.length)))).dropCol nc))
    ∧ (oc.Nodup → j < oc.length → oc.getD j "" ∉ df.columns →
        (Table.mk (df.cols ++ buildNutriCols oc padded)).getCol (oc.getD j "")
          = padded.map (fun row => (row.getD j Atom.absent).toCell))
    ∧ (sc ∈ df.columns → sc ∉ allowedParts →
        (convert_temporal_columns df sc true ps).getCol sc
          = (df.getCol sc).map toDatetimeCell)
    ∧ (sc ∈ df.columns → sc ∉ allowedParts → p ∈ allowedParts → p ∈ ps →
        (convert_temporal_columns df sc true ps).getCol p
          = ((df.getCol sc).map toDatetimeCell).map (dtPartFun p))
    ∧ (m ∉ allowedParts → m ≠ sc →
        (convert_temporal_columns df sc ap ps).getCol m = df.getCol m)
    ∧ (convert_contributor_to_category df cc).getCol m = df.getCol m
    ∧ (convert_contributor_to_category df cc).columns = df.columns
    ∧ (convert_list_like_columns df rcfg.list_like_cols = Except.ok df1 →
        (if rcfg.nutrition_col ∈ df1.columns then
           split_nutrition_columns df1 rcfg.nutrition_col (pipelineSplitOutputCols rcfg)
             rcfg.drop_original_nutrition
         else Except.ok df1) = Except.ok df2 →
        convert_recipes_for_univariate df (some rcfg)
          = Except.ok (convert_contributor_to_category
              (convert_temporal_columns df2 rcfg.temporal_col rcfg.add_temporal_parts
                rcfg.temporal_parts)
              rcfg.contributor_col)) := by
  refine ⟨fun h1 => convert_list_like_uniform cols df out1 n h h1,
          fun h2 => split_uniform df nc oc dr n out2 h h2,
          temporal_uniform df sc ap ps n h,
          category_uniform df cc n h,
          fun h5 => pipeline_uniform df cfg n out5 h h5,
          fun hcv hcm hi => ?_,
          fun hcv hmc => convert_list_like_single_frame df outc c m hmc hcv,
          fun hmem hap hflt => split_success_eq df nc oc lists hmem hap hflt,
          fun hmem hap hflt => split_success_drop_eq df nc oc lists hmem hap hflt,
          fun hnd hj hni => getCol_buildNutri df oc padded j hnd hj hni,
          fun hmem hna => temporal_getCol_source df sc ps hmem hna,
          fun hmem hna hp hps => temporal_getCol_part df sc p ps hmem hna hp hps,
          fun hm1 hm2 => temporal_getCol_frame df sc ap ps m hm1 hm2,
          getCol_convert_category df cc m,
          columns_convert_category df cc,
          fun h1 h2 => pipeline_decomposition df df1 df2 rcfg h1 h2⟩
  have hs := convert_list_like_single df outc c hcm hcv
  refine applySeries_ok_getD ensure_list_or_none _ _ hs i ?_
  rw [getCol_length_of_mem df c n h hcm]
  exact hi

/-- One-row table exercising all four stages: a contributor id, a
string-encoded tags cell, a string-encoded 7-entry nutrition cell and
a date string. -/
def C8_table : Table :=
  ⟨[⟨"contributor_id", false, [Cell.int 7]⟩,
    ⟨"tags", false, [Cell.str "[1]"]⟩,
    ⟨"nutrition", false, [Cell.str "[1, 2, 3, 4, 5, 6, 7]"]⟩,
    ⟨"submitted", false, [Cell.str "2020-01-15"]⟩]⟩

/-- A configuration whose list-like columns are just tags, so the
nutrition cell still holds a string when the splitter runs. -/
def C8_cfg : RecipeConversionConfig :=
  ⟨["tags"], "nutrition", "submitted", true, ["year", "month"], "contributor_id", false⟩

/-- `C8_table` after parsing the tags column. -/
def C8_parsed : Table :=
  ⟨[⟨"contributor_id", false, [Cell.int 7]⟩,
    ⟨"tags", false, [Cell.list [Atom.int 1]]⟩,
    ⟨"nutrition", false, [Cell.str "[1, 2, 3, 4, 5, 6, 7]"]⟩,
    ⟨"submitted", false, [Cell.str "2020-01-15"]⟩]⟩

/-- `C8_parsed` after the nutrition split. -/
def C8_split : Table :=
  ⟨[⟨"contributor_id", false, [Cell.int 7]⟩,
    ⟨"tags", false, [Cell.list [Atom.int 1]]⟩,
    ⟨"nutrition", false, [Cell.str "[1, 2, 3, 4, 5, 6, 7]"]⟩,
    ⟨"submitted", false, [Cell.str "2020-01-15"]⟩,
    ⟨"calories", false, [Cell.int 1]⟩,
    ⟨"total_fat", false, [Cell.int 2]⟩,
    ⟨"sugar", false, [Cell.int 3]⟩,
    ⟨"sodium", false, [Cell.int 4]⟩,
    ⟨"protein", false, [Cell.int 5]⟩,
    ⟨"saturated_fat", false, [Cell.int 6]⟩,
    ⟨"carbohydrates", false, [Cell.int 7]⟩]⟩

/-- The full pipeline's output on `C8_table` under `C8_cfg`. -/
def C8_final : Table :=
  ⟨[⟨"contributor_id", true, [Cell.int 7]⟩,
    ⟨"tags", false, [Cell.list [Atom.int 1]]⟩,
    ⟨"nutrition", false, [Cell.str "[1, 2, 3, 4, 5, 6, 7]"]⟩,
    ⟨"submitted", false, [Cell.date 2020 1 15]⟩,
    ⟨"calories", false, [Cell.int 1]⟩,
    ⟨"total_fat", false, [Cell.int 2]⟩,
    ⟨"sugar", false, [Cell.int 3]⟩,
    ⟨"sodium", false, [Cell.int 4]⟩,
    ⟨"protein", false, [Cell.int 5]⟩,
    ⟨"saturated_fat", false, [Cell.int 6]⟩,
    ⟨"carbohydrates", false, [Cell.int 7]⟩,
    ⟨"year", false, [Cell.int 2020]⟩,
    ⟨"month", false, [Cell.int 1]⟩]⟩

/-- The coerced nutrition column of `C8_table`. -/
def C8_lists : List Cell :=
  [Cell.list [Atom.int 1, Atom.int 2, Atom.int 3, Atom.int 4, Atom.int 5, Atom.int 6, Atom.int 7]]

/-- The padded nutrition rows of `C8_table`. -/
def C8_padded : List (List Atom) :=
  [[Atom.int 1, Atom.int 2, Atom.int 3, Atom.int 4, Atom.int 5, Atom.int 6, Atom.int 7]]

/-- `C8_table` after splitting nutrition directly (tags still a
string). -/
def C8_table_split : Table :=
  ⟨[⟨"contributor_id", false, [Cell.int 7]⟩,
    ⟨"tags", false, [Cell.str "[1]"]⟩,
    ⟨"nutrition", false, [Cell.str "[1, 2, 3, 4, 5, 6, 7]"]⟩,
    ⟨"submitted", false, [Cell.str "2020-01-15"]⟩,
    ⟨"calories", false, [Cell.int 1]⟩,
    ⟨"total_fat", false, [Cell.int 2]⟩,
    ⟨"sugar", false, [Cell.int 3]⟩,
    ⟨"sodium", false, [Cell.int 4]⟩,
    ⟨"protein", false, [Cell.int 5]⟩,
    ⟨"saturated_fat", false, [Cell.int 6]⟩,
    ⟨"carbohydrates", false, [Cell.int 7]⟩]⟩

theorem C8_witness :
    uniformRows C8_table 1
    ∧ uniformRows C8_parsed 1
    ∧ uniformRows C8_table_split 1
    ∧ uniformRows (convert_temporal_columns C8_table "submitted" true ["year", "month"]) 1
    ∧ uniformRows (convert_contributor_to_category C8_table "contributor_id") 1
    ∧ uniformRows C8_final 1
    ∧ ensure_list_or_none ((C8_table.getCol "tags").getD 0 Cell.absent)
        = Except.ok ((C8_parsed.getCol "tags").getD 0 Cell.absent)
    ∧ C8_parsed.getCol "contributor_id" = C8_table.getCol "contributor_id"
    ∧ split_nutrition_columns C8_table "nutrition" NUTRITION_COLS false
        = Except.ok (Table.mk (C8_table.cols ++ buildNutriCols NUTRITION_COLS
            (C8_lists.map (fun x => pad_or_none x NUTRITION_COLS.length))))
    ∧ split_nutrition_columns C8_table "nutrition" NUTRITION_COLS true
        = Except.ok ((Table.mk (C8_table.cols ++ buildNutriCols NUTRITION_COLS
            (C8_lists.map (fun x => pad_or_none x NUTRITION_COLS.length)))).dropCol "nutrition")
    ∧ (Table.mk (C8_table.cols ++ buildNutriCols NUTRITION_COLS C8_padded)).getCol
          (NUTRITION_COLS.getD 0 "")
        = C8_padded.map (fun row => (row.getD 0 Atom.absent).toCell)
    ∧ (convert_temporal_columns C8_table "submitted" true ["year", "month"]).getCol "submitted"
        = (C8_table.getCol "submitted").map toDatetimeCell
    ∧ (convert_temporal_columns C8_table "submitted" true ["year", "month"]).getCol "year"
        = ((C8_table.getCol "submitted").map toDatetimeCell).map (dtPartFun "year")
    ∧ (convert_temporal_columns C8_table "submitted" true ["year", "month"]).getCol "contributor_id"
        = C8_table.getCol "contributor_id"
    ∧ (convert_contributor_to_category C8_table "contributor_id").getCol "contributor_id"
        = C8_table.getCol "contributor_id"
    ∧ (convert_contributor_to_category C8_table "contributor_id").columns = C8_table.columns
    ∧ convert_recipes_for_univariate C8_table (some C8_cfg)
        = Except.ok (convert_contributor_to_category
            (convert_temporal_columns C8_split "submitted" true ["year", "month"])
            "contributor_id") := by
  have H := C8_row_count_preserved C8_table C8_parsed C8_table_split C8_final C8_parsed 1 0
    ["tags"] "nutrition" NUTRITION_COLS false true "submitted" "contributor_id" "tags"
    ["year", "month"] (some C8_cfg) C8_parsed C8_split 0 "contributor_id" "year" C8_lists
    C8_padded C8_cfg (by decide)
  exact ⟨by decide,
    H.1 (by decide),
    H.2.1 (by decide),
    H.2.2.1,
    H.2.2.2.1,
    H.2.2.2.2.1 (by decide),
    H.2.2.2.2.2.1 (by decide) (by decide) (by decide),
    H.2.2.2.2.2.2.1 (by decide) (by decide),
    H.2.2.2.2.2.2.2.1 (by decide) (by decide) (by decide),
    H.2.2.2.2.2.2.2.2.1 (by decide) (by decide) (by decide),
    H.2.2.2.2.2.2.2.2.2.1 (by decide) (by decide) (by decide),
    H.2.2.2.2.2.2.2.2.2.2.1 (by decide) (by decide),
    H.2.2.2.2.2.2.2.2.2.2.2.1 (by decide) (by decide) (by decide) (by decide),
    H.2.2.2.2.2.2.2.2.2.2.2.2.1 (by decide) (by decide),
    H.2.2.2.2.2.2.2.2.2.2.2.2.2.1,
    H.2.2.2.2.2.2.2.2.2.2.2.2.2.2.1,
    H.2.2.2.2.2.2.2.2.2.2.2.2.2.2.2 (by decide) (by decide)⟩
